import Mathlib

/-!
A shallow embedding of the GrovePi host-side driver (`grovepi.py` of
elnappo/GrovePi-python3) and proofs about its command/response protocol layer.

The transport (`smbus.SMBus`) is modelled by a `Bus` record giving, for one
round trip, the outcome of the block write, the single-byte read and the block
read.  Each façade operation of the source is translated into a function from
its arguments and the `Bus` to an `Except PyErr` result; Python list indexing,
slicing and the exception conversions are reproduced statement by statement.
Line numbers in doc comments refer to `grovepi.py`.
-/

namespace GrovePi

/-- Errors that can escape a façade operation.  `grovePiException msg` models
the single exception class `GrovePiException` of the source (lines 134-135);
`msg` is `none` for a bare `raise GrovePiException` and `some s` when the
source attaches a diagnostic (the message of a wrapped `IOError`, or the
literal string "NaN").  The remaining constructors model uncaught Python
built-in errors that the source does not catch. -/
inductive PyErr where
  | grovePiException (msg : Option String)
  | zeroDivisionError
  | valueError
  | indexError
  | structError
  | overflowError
deriving DecidableEq

/-- One round-trip view of the transport: whether `bus.write_i2c_block_data`
raises an `IOError` (with its message), and what `bus.read_byte` and
`bus.read_i2c_block_data` return (`Except.error s` is an `IOError` with
message `s`).  Block bytes are naturals; the real bus delivers bytes 0-255. -/
structure Bus where
  writeErr : Option String
  byteResp : Except String Nat
  blockResp : Except String (List Nat)

/-- Lines 141-145: the block write; an `IOError` is wrapped into
`GrovePiException`.  The content of the written block does not influence the
modelled outcome, but every call site passes the exact frame it sends. -/
def write_i2c_block (bus : Bus) (_block : List Nat) : Except PyErr Unit :=
  match bus.writeErr with
  | some e => .error (.grovePiException (some e))
  | none => .ok ()

/-- Lines 148-152: single byte read; `IOError` wrapped into `GrovePiException`. -/
def read_i2c_byte (bus : Bus) : Except PyErr Nat :=
  match bus.byteResp with
  | .error e => .error (.grovePiException (some e))
  | .ok n => .ok n

/-- Lines 155-159: block read; `IOError` wrapped into `GrovePiException`. -/
def read_i2c_block (bus : Bus) : Except PyErr (List Nat) :=
  match bus.blockResp with
  | .error e => .error (.grovePiException (some e))
  | .ok blk => .ok blk

/-- Python list indexing `l[i]` for a nonnegative index: `IndexError` when the
index is out of range. -/
def pyGet (l : List Nat) (i : Nat) : Except PyErr Nat :=
  match l.get? i with
  | some x => .ok x
  | none => .error .indexError

/-! Command headers, lines 36-125 of the source. -/

def unused : Nat := 0

def dRead_cmd : List Nat := [1]

def dWrite_cmd : List Nat := [2]

def aRead_cmd : List Nat := [3]

def aWrite_cmd : List Nat := [4]

def pMode_cmd : List Nat := [5]

def uRead_cmd : List Nat := [7]

def version_cmd : List Nat := [8]

def acc_xyz_cmd : List Nat := [20]

def rtc_getTime_cmd : List Nat := [30]

def dht_temp_cmd : List Nat := [40]

def ledbar_init_cmd : List Nat := [50]

def ledbar_orient_cmd : List Nat := [51]

def ledbar_level_cmd : List Nat := [52]

def ledbar_set_one_cmd : List Nat := [53]

def ledbar_toggle_one_cmd : List Nat := [54]

def ledbar_set_cmd : List Nat := [55]

def ledbar_get_cmd : List Nat := [56]

def fourDigitInit_cmd : List Nat := [70]

def fourDigitBrightness_cmd : List Nat := [71]

def fourDigitValue_cmd : List Nat := [72]

def fourDigitValueZeros_cmd : List Nat := [73]

def fourDigitIndividualDigit_cmd : List Nat := [74]

def fourDigitIndividualLeds_cmd : List Nat := [75]

def fourDigitScore_cmd : List Nat := [76]

def fourDigitAnalogRead_cmd : List Nat := [77]

def fourDigitAllOn_cmd : List Nat := [78]

def fourDigitAllOff_cmd : List Nat := [79]

def storeColor_cmd : List Nat := [90]

def chainableRgbLedInit_cmd : List Nat := [91]

def chainableRgbLedTest_cmd : List Nat := [92]

def chainableRgbLedSetPattern_cmd : List Nat := [93]

def chainableRgbLedSetModulo_cmd : List Nat := [94]

def chainableRgbLedSetLevel_cmd : List Nat := [95]

def ir_read_cmd : List Nat := [21]

def ir_recv_pin_cmd : List Nat := [22]

def dus_sensor_read_cmd : List Nat := [10]

def dust_sensor_en_cmd : List Nat := [14]

def dust_sensor_dis_cmd : List Nat := [15]

def encoder_read_cmd : List Nat := [11]

def encoder_en_cmd : List Nat := [16]

def encoder_dis_cmd : List Nat := [17]

def flow_read_cmd : List Nat := [12]

def flow_disable_cmd : List Nat := [13]

def flow_en_cmd : List Nat := [18]

/-! The 4-byte command frames each façade operation passes to
`write_i2c_block`, exactly as the call sites build them. -/

/-- Line 164. -/
def digital_read_frame (pin : Nat) : List Nat := dRead_cmd ++ [pin, unused, unused]

/-- Line 172. -/
def digital_write_frame (pin value : Nat) : List Nat := dWrite_cmd ++ [pin, value, unused]

/-- Line 178. -/
def pin_mode_output_frame (pin : Nat) : List Nat := pMode_cmd ++ [pin, 1, unused]

/-- Line 180. -/
def pin_mode_input_frame (pin : Nat) : List Nat := pMode_cmd ++ [pin, 0, unused]

/-- Line 185. -/
def analog_read_frame (pin : Nat) : List Nat := aRead_cmd ++ [pin, unused, unused]

/-- Line 195. -/
def analog_write_frame (pin value : Nat) : List Nat := aWrite_cmd ++ [pin, value, unused]

/-- Line 219. -/
def ultrasonic_read_frame (pin : Nat) : List Nat := uRead_cmd ++ [pin, unused, unused]

/-- Line 228. -/
def version_frame : List Nat := version_cmd ++ [unused, unused, unused]

/-- Line 237. -/
def acc_xyz_frame : List Nat := acc_xyz_cmd ++ [unused, unused, unused]

/-- Line 252. -/
def rtc_get_time_frame : List Nat := rtc_getTime_cmd ++ [unused, unused, unused]

/-- Line 261. -/
def dht_frame (pin module_type : Nat) : List Nat := dht_temp_cmd ++ [pin, module_type, unused]

/-- Line 294. -/
def ledbar_init_frame (pin ori : Nat) : List Nat := ledbar_init_cmd ++ [pin, ori, unused]

/-- Line 300. -/
def ledbar_orient_frame (pin ori : Nat) : List Nat := ledbar_orient_cmd ++ [pin, ori, unused]

/-- Line 306. -/
def ledbar_set_level_frame (pin level : Nat) : List Nat := ledbar_level_cmd ++ [pin, level, unused]

/-- Line 313. -/
def ledbar_set_led_frame (pin led state : Nat) : List Nat := ledbar_set_one_cmd ++ [pin, led, state]

/-- Line 319. -/
def ledbar_toggle_led_frame (pin led : Nat) : List Nat := ledbar_toggle_one_cmd ++ [pin, led, unused]

/-- Lines 324-327: `byte1 = state & 255`, `byte2 = state >> 8`. -/
def ledbar_set_bits_frame (pin state : Nat) : List Nat :=
  ledbar_set_cmd ++ [pin, state &&& 255, state >>> 8]

/-- Line 333. -/
def ledbar_get_bits_frame (pin : Nat) : List Nat := ledbar_get_cmd ++ [pin, unused, unused]

/-- Line 342. -/
def four_digit_init_frame (pin : Nat) : List Nat := fourDigitInit_cmd ++ [pin, unused, unused]

/-- Lines 347-355: the value is split into low and high byte; the opcode
depends on the `leading_zero` flag exactly as in the source. -/
def four_digit_number_frame (pin value : Nat) (leading_zero : Bool) : List Nat :=
  if leading_zero then fourDigitValue_cmd ++ [pin, value &&& 255, value >>> 8]
  else fourDigitValueZeros_cmd ++ [pin, value &&& 255, value >>> 8]

/-- Line 363. -/
def four_digit_brightness_frame (pin brightness : Nat) : List Nat :=
  fourDigitBrightness_cmd ++ [pin, brightness, unused]

/-- Line 371. -/
def four_digit_digit_frame (pin segment value : Nat) : List Nat :=
  fourDigitIndividualDigit_cmd ++ [pin, segment, value]

/-- Line 379. -/
def four_digit_segment_frame (pin segment leds : Nat) : List Nat :=
  fourDigitIndividualLeds_cmd ++ [pin, segment, leds]

/-- Line 388. -/
def four_digit_score_frame (pin left right : Nat) : List Nat :=
  fourDigitScore_cmd ++ [pin, left, right]

/-- Line 396. -/
def four_digit_monitor_frame (pin analog duration : Nat) : List Nat :=
  fourDigitAnalogRead_cmd ++ [pin, analog, duration]

/-- Line 402. -/
def four_digit_on_frame (pin : Nat) : List Nat := fourDigitAllOn_cmd ++ [pin, unused, unused]

/-- Line 408. -/
def four_digit_off_frame (pin : Nat) : List Nat := fourDigitAllOff_cmd ++ [pin, unused, unused]

/-- Line 417. -/
def store_color_frame (red green blue : Nat) : List Nat := storeColor_cmd ++ [red, green, blue]

/-- Line 424. -/
def chainable_rgb_led_init_frame (pin num_leds : Nat) : List Nat :=
  chainableRgbLedInit_cmd ++ [pin, num_leds, unused]

/-- Line 433. -/
def chainable_rgb_led_test_frame (pin num_leds test_color : Nat) : List Nat :=
  chainableRgbLedTest_cmd ++ [pin, num_leds, test_color]

/-- Line 441. -/
def chainable_rgb_led_pattern_frame (pin pattern which_led : Nat) : List Nat :=
  chainableRgbLedSetPattern_cmd ++ [pin, pattern, which_led]

/-- Line 449. -/
def chainable_rgb_led_modulo_frame (pin offset divisor : Nat) : List Nat :=
  chainableRgbLedSetModulo_cmd ++ [pin, offset, divisor]

/-- Line 457. -/
def chainable_rgb_led_set_level_frame (pin level reverse : Nat) : List Nat :=
  chainableRgbLedSetLevel_cmd ++ [pin, level, reverse]

/-- Line 464. -/
def ir_read_signal_frame : List Nat := ir_read_cmd ++ [unused, unused, unused]

/-- Line 476. -/
def ir_recv_pin_frame (pin : Nat) : List Nat := ir_recv_pin_cmd ++ [pin, unused, unused]

/-- Line 480. -/
def dust_sensor_en_frame : List Nat := dust_sensor_en_cmd ++ [unused, unused, unused]

/-- Line 485. -/
def dust_sensor_dis_frame : List Nat := dust_sensor_dis_cmd ++ [unused, unused, unused]

/-- Line 490. -/
def dust_sensor_read_frame : List Nat := dus_sensor_read_cmd ++ [unused, unused, unused]

/-- Line 502. -/
def encoder_en_frame : List Nat := encoder_en_cmd ++ [unused, unused, unused]

/-- Line 507. -/
def encoder_dis_frame : List Nat := encoder_dis_cmd ++ [unused, unused, unused]

/-- Line 512. -/
def encoder_read_frame : List Nat := encoder_read_cmd ++ [unused, unused, unused]

/-- Line 523. -/
def flow_disable_frame : List Nat := flow_disable_cmd ++ [unused, unused, unused]

/-- Line 528. -/
def flow_enable_frame : List Nat := flow_en_cmd ++ [unused, unused, unused]

/-- Line 533. -/
def flow_read_frame : List Nat := flow_read_cmd ++ [unused, unused, unused]

/-! Decoding of response blocks, factored out of each façade operation
exactly as the source reads the block it received. -/

/-- Line 190: `number[1] * 256 + number[2]`. -/
def analog_read_decode (number : List Nat) : Except PyErr Nat := do
  let b1 ← pyGet number 1
  let b2 ← pyGet number 2
  pure (b1 * 256 + b2)

/-- Line 223: `number[1] * 256 + number[2]`. -/
def ultrasonic_read_decode (number : List Nat) : Except PyErr Nat := do
  let b1 ← pyGet number 1
  let b2 ← pyGet number 2
  pure (b1 * 256 + b2)

/-- Line 232: the version triplet rendered as a dot-joined string. -/
def version_decode (number : List Nat) : Except PyErr String := do
  let b1 ← pyGet number 1
  let b2 ← pyGet number 2
  let b3 ← pyGet number 3
  pure (toString b1 ++ "." ++ toString b2 ++ "." ++ toString b3)

/-- Lines 241-246: an axis byte above 32 is folded via `-(value - 224)`. -/
def acc_fold (b : Nat) : Int := if b > 32 then -((b : Int) - 224) else (b : Int)

/-- Lines 240-247: the three axis bytes of the accelerometer block. -/
def acc_xyz_decode (number : List Nat) : Except PyErr (Int × Int × Int) := do
  let n1 ← pyGet number 1
  let n2 ← pyGet number 2
  let n3 ← pyGet number 3
  pure (acc_fold n1, acc_fold n2, acc_fold n3)

/-- Line 337: `block[1] ^ (block[2] << 8)`. -/
def ledbar_get_decode (block : List Nat) : Except PyErr Nat := do
  let b1 ← pyGet block 1
  let b2 ← pyGet block 2
  pure (b1 ^^^ (b2 <<< 8))

/-- Lines 466-469: the IR read slices the block to `[0:21]`; if byte 1 is not
255 the raw slice is returned, otherwise the list `[-1] * 21`.  The values are
Python ints, so the result lives in `Int`. -/
def ir_decode (blk : List Nat) : Except PyErr (List Int) := do
  let data_back := blk.take 21
  let d1 ← pyGet data_back 1
  if d1 ≠ 255 then pure (data_back.map (fun b => (b : Int)))
  else pure (List.replicate 21 (-1 : Int))

/-- Lines 492-498: slice `[0:4]`; header 255 means a bare
`raise GrovePiException`, otherwise `[header, d3*256*256 + d2*256 + d1]`. -/
def dust_sensor_decode (blk : List Nat) : Except PyErr (List Nat) := do
  let data_back := blk.take 4
  let d0 ← pyGet data_back 0
  if d0 ≠ 255 then do
    let d3 ← pyGet data_back 3
    let d2 ← pyGet data_back 2
    let d1 ← pyGet data_back 1
    pure [d0, d3 * 256 * 256 + d2 * 256 + d1]
  else .error (.grovePiException none)

/-- Lines 514-519: slice `[0:2]`; header 255 means a bare
`raise GrovePiException`, otherwise `[d0, d1]`. -/
def encoder_decode (blk : List Nat) : Except PyErr (List Nat) := do
  let data_back := blk.take 2
  let d0 ← pyGet data_back 0
  if d0 ≠ 255 then do
    let d1 ← pyGet data_back 1
    pure [d0, d1]
  else .error (.grovePiException none)

/-- Lines 535-540: slice `[0:3]`; header 255 means a bare
`raise GrovePiException`, otherwise `[d0, d2*256 + d1]`. -/
def flow_decode (blk : List Nat) : Except PyErr (List Nat) := do
  let data_back := blk.take 3
  let d0 ← pyGet data_back 0
  if d0 ≠ 255 then do
    let d2 ← pyGet data_back 2
    let d1 ← pyGet data_back 1
    pure [d0, d2 * 256 + d1]
  else .error (.grovePiException none)

/-! Façade operations: write, (sleep), read(s), decode. -/

/-- Lines 163-167: digital read writes its frame, sleeps, and returns the
single byte read back. -/
def digital_read (bus : Bus) (pin : Nat) : Except PyErr Nat := do
  let _ ← write_i2c_block bus (digital_read_frame pin)
  read_i2c_byte bus

/-- Lines 171-172: digital write is a fire-and-forget frame write. -/
def digital_write (bus : Bus) (pin value : Nat) : Except PyErr Unit :=
  write_i2c_block bus (digital_write_frame pin value)

/-- Lines 176-181: `pin_mode` writes a frame only when the mode string is
exactly "OUTPUT" or "INPUT"; any other mode falls through the `if`/`elif` and
the function returns `None` without touching the bus.  The first component
lists the frames passed to the bus write. -/
def pin_mode (bus : Bus) (pin : Nat) (mode : String) : List (List Nat) × Except PyErr Unit :=
  if mode = "OUTPUT" then
    ([pin_mode_output_frame pin], write_i2c_block bus (pin_mode_output_frame pin))
  else if mode = "INPUT" then
    ([pin_mode_input_frame pin], write_i2c_block bus (pin_mode_input_frame pin))
  else ([], .ok ())

/-- Lines 184-190: analog read writes its frame, discards one byte, reads a
block and decodes bytes 1 and 2. -/
def analog_read (bus : Bus) (pin : Nat) : Except PyErr Nat := do
  let _ ← write_i2c_block bus (analog_read_frame pin)
  let _ ← read_i2c_byte bus
  let number ← read_i2c_block bus
  analog_read_decode number

/-- Lines 218-223. -/
def ultrasonic_read (bus : Bus) (pin : Nat) : Except PyErr Nat := do
  let _ ← write_i2c_block bus (ultrasonic_read_frame pin)
  let _ ← read_i2c_byte bus
  let number ← read_i2c_block bus
  ultrasonic_read_decode number

/-- Lines 227-232. -/
def version (bus : Bus) : Except PyErr String := do
  let _ ← write_i2c_block bus version_frame
  let _ ← read_i2c_byte bus
  let number ← read_i2c_block bus
  version_decode number

/-- Lines 236-247. -/
def acc_xyz (bus : Bus) : Except PyErr (Int × Int × Int) := do
  let _ ← write_i2c_block bus acc_xyz_frame
  let _ ← read_i2c_byte bus
  let number ← read_i2c_block bus
  acc_xyz_decode number

/-- Lines 251-256: the RTC read returns the raw block unchanged. -/
def rtc_get_time (bus : Bus) : Except PyErr (List Nat) := do
  let _ ← write_i2c_block bus rtc_get_time_frame
  let _ ← read_i2c_byte bus
  read_i2c_block bus

/-- Lines 332-337. -/
def ledbar_get_bits (bus : Bus) (pin : Nat) : Except PyErr Nat := do
  let _ ← write_i2c_block bus (ledbar_get_bits_frame pin)
  let _ ← read_i2c_byte bus
  let block ← read_i2c_block bus
  ledbar_get_decode block

/-- Lines 462-471: the IR signal read.  The surrounding
`except IOError` re-wrap in the source is unreachable because the transport
helpers already convert `IOError`; errors simply propagate. -/
def ir_read_signal (bus : Bus) : Except PyErr (List Int) := do
  let _ ← write_i2c_block bus ir_read_signal_frame
  let blk ← read_i2c_block bus
  ir_decode blk

/-- Lines 489-498. -/
def dust_sensor_read (bus : Bus) : Except PyErr (List Nat) := do
  let _ ← write_i2c_block bus dust_sensor_read_frame
  let blk ← read_i2c_block bus
  dust_sensor_decode blk

/-- Lines 511-519. -/
def encoder_read (bus : Bus) : Except PyErr (List Nat) := do
  let _ ← write_i2c_block bus encoder_read_frame
  let blk ← read_i2c_block bus
  encoder_decode blk

/-- Lines 532-540. -/
def flow_read (bus : Bus) : Except PyErr (List Nat) := do
  let _ ← write_i2c_block bus flow_read_frame
  let blk ← read_i2c_block bus
  flow_decode blk

/-! The thermistor operation `temp`, lines 199-214. -/

/-- Lines 201-206: the B-coefficient selected from the model string. -/
def temp_b_value (model : String) : Nat :=
  if model = "1.2" then 4250
  else if model = "1.1" then 4250
  else 3975

/-- Line 208: `resistance = float(1023 - a) * 10000 / a`, exact in `ℚ`.
(The operands are small integers, so the float computation is exact and in
particular has the same sign and zero set as this rational value.) -/
def resistanceQ (a : Nat) : ℚ := ((1023 : ℚ) - (a : ℚ)) * 10000 / (a : ℚ)

/-- Outcome of evaluating, in Python float arithmetic, the expression
`1 / (log(resistance / 10000) / b_value + 1 / 298.15) - 273.15` of line 209
once `log` is known to be defined: either a `ZeroDivisionError` (the
denominator is the float 0.0), a NaN, or a finite value. -/
inductive ConvRes where
  | zeroDiv
  | nan
  | val (t : ℚ)
deriving DecidableEq

/-- Lines 199-214.  The transcendental float expression of line 209 cannot be
embedded exactly, so it is a parameter `E` giving its evaluation at the exact
resistance and the selected B value; everything else is translated directly:
`a = 0` raises `ZeroDivisionError` at line 208, `math.log` raises
`ValueError` when its argument is not positive (which is decided by the exact
rational sign), and a NaN result raises `GrovePiException("NaN")` at
line 212.  `a` is obtained by `analog_read` on the same bus. -/
def temp (E : ℚ → Nat → ConvRes) (bus : Bus) (pin : Nat) (model : String) : Except PyErr ℚ :=
  let b_value := temp_b_value model
  match analog_read bus pin with
  | .error e => .error e
  | .ok a =>
    if a = 0 then .error .zeroDivisionError
    else
      let resistance := resistanceQ a
      if resistance / 10000 ≤ 0 then .error .valueError
      else
        match E resistance b_value with
        | .zeroDiv => .error .zeroDivisionError
        | .nan => .error (.grovePiException (some ("NaN")))
        | .val t => .ok t

/-! The DHT operation, lines 259-288.  `struct.unpack('f', ...)` reinterprets
4 bytes as an IEEE-754 binary32 float (little-endian, the native order of the
target platform); finite binary32 values are exact rationals, so the decode is
embedded exactly. -/

/-- Result of reinterpreting 32 bits as a binary32 float: NaN, an infinity, or
a finite value (exact as a rational). -/
inductive F32 where
  | nan
  | inf
  | val (q : ℚ)
deriving DecidableEq

/-- Exact IEEE-754 binary32 decode of four little-endian bytes. -/
def decodeF32LE (b0 b1 b2 b3 : Nat) : F32 :=
  let bits : Nat := b0 + 256 * b1 + 65536 * b2 + 16777216 * b3
  let ex : Nat := bits / 2 ^ 23 % 256
  let man : Nat := bits % 2 ^ 23
  let sign : ℚ := if bits / 2 ^ 31 % 2 = 1 then -1 else 1
  if ex = 255 then (if man = 0 then .inf else .nan)
  else if ex = 0 then .val (sign * (man : ℚ) / 2 ^ 149)
  else .val (sign * ((2 ^ 23 : ℚ) + (man : ℚ)) * 2 ^ ex / 2 ^ 150)

/-- Python `bytearray(xs)`: raises `ValueError` unless every element is in
0..255. -/
def toBytearray (s : List Nat) : Except PyErr (List Nat) :=
  if s.all (fun b => b < 256) then .ok s else .error .valueError

/-- Python `struct.unpack('f', s)[0]`: raises `struct.error` unless `s` is
exactly 4 bytes. -/
def unpackF32 (s : List Nat) : Except PyErr F32 :=
  match s with
  | [b0, b1, b2, b3] => .ok (decodeF32LE b0 b1 b2 b3)
  | _ => .error .structError

/-- Round half to even, the rounding used by Python `round`. -/
def roundHalfEven (q : ℚ) : ℤ :=
  if q - Rat.floor q < 1 / 2 then Rat.floor q
  else if q - Rat.floor q > 1 / 2 then Rat.floor q + 1
  else if Rat.floor q % 2 = 0 then Rat.floor q else Rat.floor q + 1

/-- Python `round(x, 2)` on the exact rational value of a float (the tiny
float-vs-decimal discrepancies of `round` on non-representable halves are not
modelled). -/
def roundQ2 (q : ℚ) : ℚ := (roundHalfEven (q * 100) : ℚ) / 100

/-- Python `round(x, 2)` on a float: NaN passes through (`some` is a number,
`none` is NaN), an infinity raises `OverflowError`. -/
def pyRound2 (x : F32) : Except PyErr (Option ℚ) :=
  match x with
  | .nan => .ok none
  | .inf => .error .overflowError
  | .val q => .ok (some (roundQ2 q))

/-- Lines 274-288: `t_val = bytearray(number[1:5])`,
`h_val = bytearray(number[5:9])`, each unpacked as a binary32 float and
rounded to 2 decimals; if either is NaN, `GrovePiException("NaN")` is raised,
otherwise `[float(t), float(hum)]` is returned.  (The `number == -1` test of
line 269 compares a list with an int and is always false; the final
`float(...)` conversions cannot raise on a float input.) -/
def dht_decode (number : List Nat) : Except PyErr (List ℚ) := do
  let t_val ← toBytearray ((number.drop 1).take 4)
  let h_val ← toBytearray ((number.drop 5).take 4)
  let tF ← unpackF32 t_val
  let t ← pyRound2 tF
  let hF ← unpackF32 h_val
  let hum ← pyRound2 hF
  match t, hum with
  | some qt, some qh => pure [qt, qh]
  | _, _ => .error (.grovePiException (some ("NaN")))

/-- Lines 260-288: the DHT operation. -/
def dht (bus : Bus) (pin module_type : Nat) : Except PyErr (List ℚ) := do
  let _ ← write_i2c_block bus (dht_frame pin module_type)
  let _ ← read_i2c_byte bus
  let number ← read_i2c_block bus
  dht_decode number

/-! Helper lemmas. -/

/-- Recombining the low byte and the shifted high byte with xor restores the
value: the two parts occupy disjoint bit ranges. -/
theorem low8_xor_high8 (v : Nat) : (v &&& 255) ^^^ ((v >>> 8) <<< 8) = v := by
  apply Nat.eq_of_testBit_eq
  intro i
  rw [Nat.testBit_xor, Nat.testBit_land, Nat.testBit_shiftLeft, Nat.testBit_shiftRight]
  by_cases h : i < 8
  · have h255 : Nat.testBit 255 i = true := by
      interval_cases i <;> decide
    have hge : ¬ i ≥ 8 := by omega
    simp [h255, hge]
  · have h255 : Nat.testBit 255 i = false := by
      apply Nat.testBit_eq_false_of_lt
      calc (255 : Nat) < 2 ^ 8 := by decide
        _ ≤ 2 ^ i := Nat.pow_le_pow_right (by decide) (by omega)
    have h8 : 8 + (i - 8) = i := by omega
    have hge : i ≥ 8 := by omega
    simp [h255, hge, h8]

/-- Indexing below `n` only depends on the first `n` elements. -/
theorem pyGet_congr_of_take_eq {m n : Nat} {l1 l2 : List Nat} (h : l1.take n = l2.take n)
    (hm : m < n) : pyGet l1 m = pyGet l2 m := by
  unfold pyGet
  rw [← List.get?_take hm, h, List.get?_take hm]

/-- A shorter prefix is determined by a longer one. -/
theorem take_congr_of_take_eq {m n : Nat} {l1 l2 : List Nat} (h : l1.take n = l2.take n)
    (hmn : m ≤ n) : l1.take m = l2.take m := by
  have e : ∀ l : List Nat, l.take m = (l.take n).take m := by
    intro l
    rw [List.take_take, min_eq_left hmn]
  rw [e l1, e l2, h]

/-- A bounded slice `l[a : a + m]` is determined by the first `n ≥ a + m`
elements. -/
theorem drop_take_congr_of_take_eq {a m n : Nat} {l1 l2 : List Nat}
    (h : l1.take n = l2.take n) (ham : a + m ≤ n) :
    (l1.drop a).take m = (l2.drop a).take m := by
  have e : ∀ l : List Nat, (l.drop a).take m = ((l.take n).drop a).take m := by
    intro l
    rw [List.drop_take, List.take_take, min_eq_left (by omega)]
  rw [e l1, e l2, h]

/-! Claims. -/

/-- C1 counterexample: the claim says an accelerometer axis byte `b > 32`
decodes to `b - 224`, so byte 255 would decode to `255 - 224 = 31`.  The code
(line 242) computes `-(b - 224)`: on a block whose X-axis byte is 255 the
operation returns `-31`, not `31`. -/
theorem acc_byte255_decodes_negative :
    acc_xyz ⟨none, .ok 0, .ok [0, 255, 0, 0, 0]⟩ = .ok (-31, 0, 0) ∧
    (255 - 224 : Int) = 31 ∧ ((-31 : Int) ≠ 31) := by
  refine ⟨rfl, by norm_num, by norm_num⟩

/-- C1 (amended): each accelerometer axis byte `b` decodes to `b` itself when
`b ≤ 32`, and to `-(b - 224)` (that is, `224 - b`) when `b > 32`; so byte 224
decodes to 0 and byte 255 decodes to `-31`. -/
theorem acc_xyz_signed_offset_decode :
    ∀ (n b0 b1 b2 b3 : Nat) (rest : List Nat),
      acc_xyz ⟨none, .ok n, .ok (b0 :: b1 :: b2 :: b3 :: rest)⟩ =
        .ok ((if 32 < b1 then -((b1 : Int) - 224) else (b1 : Int)),
             (if 32 < b2 then -((b2 : Int) - 224) else (b2 : Int)),
             (if 32 < b3 then -((b3 : Int) - 224) else (b3 : Int))) ∧
      acc_fold 224 = 0 ∧ acc_fold 255 = -31 := by
  intro n b0 b1 b2 b3 rest
  exact ⟨rfl, by norm_num [acc_fold], by norm_num [acc_fold]⟩

/-- C5 counterexample: the claim says every integer parameter is truncated to
its low 8 bits (`value mod 256`) before being placed in the frame.  The code
applies no such mask: `digital_write(2, 300)` builds the frame
`[2, 2, 300, 0]`, not `[2, 2, 44, 0]`. -/
theorem digital_write_param_not_masked :
    digital_write_frame 2 300 = [2, 2, 300, 0] ∧
    300 % 256 = 44 ∧
    digital_write_frame 2 300 ≠ [2, 2, 44, 0] := by
  refine ⟨rfl, rfl, by decide⟩

/-- C5 (amended): façade operations place caller parameters in the command
frame unmodified — no low-8-bit truncation is applied.  The only masking in
the module is the 16-bit split of `ledbar_set_bits` and `four_digit_number`,
whose low byte is `state & 255` and whose high byte `state >> 8` is itself
unmasked. -/
theorem frame_parameters_unmasked :
    ∀ (pin value state red green blue : Nat),
      digital_write_frame pin value = [2, pin, value, 0] ∧
      analog_write_frame pin value = [4, pin, value, 0] ∧
      store_color_frame red green blue = [90, red, green, blue] ∧
      ledbar_set_bits_frame pin state = [55, pin, state &&& 255, state >>> 8] ∧
      four_digit_number_frame pin value true = [72, pin, value &&& 255, value >>> 8] ∧
      four_digit_number_frame pin value false = [73, pin, value &&& 255, value >>> 8] ∧
      (digital_write_frame 2 300).get? 2 = some 300 := by
  intro pin value state red green blue
  exact ⟨rfl, rfl, rfl, rfl, rfl, rfl, rfl⟩

/-- C7: splitting a 16-bit value into `v & 255` and `v >> 8` as the LED-bar
set-bitmask write does, then decoding with `low ^ (high << 8)` as the LED-bar
get-bitmask read does, restores `v` for every `v ≤ 65535`; payload bytes
`0x0F`/`0x00` decode to 15, and the get-bitmask frame for pin 3 is
`[56, 3, 0, 0]`. -/
theorem ledbar_split_decode_roundtrip :
    (∀ v : Nat, v ≤ 65535 → ∀ (pin b0 : Nat) (rest : List Nat),
        ledbar_set_bits_frame pin v = [55, pin, v &&& 255, v >>> 8] ∧
        ledbar_get_decode (b0 :: (v &&& 255) :: (v >>> 8) :: rest) = .ok v) ∧
    ledbar_get_decode [0, 15, 0, 0, 0] = .ok 15 ∧
    ledbar_get_bits_frame 3 = [56, 3, 0, 0] := by
  refine ⟨?_, rfl, rfl⟩
  intro v _ pin b0 rest
  refine ⟨rfl, ?_⟩
  show Except.ok ((v &&& 255) ^^^ ((v >>> 8) <<< 8)) = Except.ok v
  rw [low8_xor_high8]

/-- C7 witness: the round trip at `v = 1023`. -/
theorem ledbar_split_decode_roundtrip_witness :
    ledbar_get_decode (56 :: (1023 &&& 255) :: (1023 >>> 8) :: [0, 0]) = .ok 1023 :=
  (ledbar_split_decode_roundtrip.1 1023 (by decide) 3 56 [0, 0]).2

/-- C9: for any mode string other than exactly "OUTPUT" and "INPUT",
`pin_mode` writes nothing to the bus and returns normally — a silent no-op,
whatever state the bus is in. -/
theorem pin_mode_unknown_mode_noop :
    ∀ (bus : Bus) (pin : Nat) (mode : String),
      mode ≠ "OUTPUT" → mode ≠ "INPUT" →
      pin_mode bus pin mode = ([], .ok ()) := by
  intro bus pin mode h1 h2
  simp [pin_mode, h1, h2]

/-- C9 witness: lowercase "output" is not recognised; even on a failing bus
no write happens and no error is raised. -/
theorem pin_mode_unknown_mode_noop_witness :
    pin_mode ⟨some ("io fail"), .error ("io fail"), .error ("io fail")⟩ 4 ("output") =
      ([], .ok ()) :=
  pin_mode_unknown_mode_noop _ 4 ("output") (by decide) (by decide)

/-- C10: inside `temp`, the B-coefficient 4250 is selected exactly for the
model strings "1.1" and "1.2"; every other string — including any
unrecognized one — falls through to 3975. -/
theorem temp_b_value_selection :
    ∀ m : String,
      (temp_b_value m = 4250 ↔ (m = "1.1" ∨ m = "1.2")) ∧
      (¬(m = "1.1" ∨ m = "1.2") → temp_b_value m = 3975) := by
  intro m
  by_cases h2 : m = "1.2"
  · subst h2
    exact ⟨by simp [temp_b_value], fun h => absurd (Or.inr rfl) h⟩
  · by_cases h1 : m = "1.1"
    · subst h1
      exact ⟨by simp [temp_b_value], fun h => absurd (Or.inl rfl) h⟩
    · constructor
      · simp [temp_b_value, h1, h2]
      · intro _
        simp [temp_b_value, h1, h2]

/-- C10 witness: the unrecognized model string "2.0" selects 3975. -/
theorem temp_b_value_selection_witness : temp_b_value ("2.0") = 3975 :=
  (temp_b_value_selection ("2.0")).2 (by decide)

/-- C2 counterexample: the claim says device-level sentinels surface as a
distinguishable `NoDataAvailable` failure.  The IR signal read (lines
466-469) does not fail at its sentinel at all: with byte 1 of the block equal
to 255 it completes normally with the value `[-1] * 21`. -/
theorem ir_sentinel_returns_value :
    ir_read_signal ⟨none, .ok 0, .ok [0, 255, 0, 0, 0]⟩ = .ok (List.replicate 21 (-1)) := rfl

/-- C2 (amended): failures of the façade operations are not three
distinguishable error kinds but the single exception type `GrovePiException`:
a transport `IOError` on write or read surfaces as `GrovePiException` with
the original diagnostic attached, a device sentinel as a bare
`GrovePiException`, and a NaN decode as `GrovePiException("NaN")` — while
the IR read sentinel does not fail at all (it returns `[-1] * 21`), and the
thermistor read below an analog value of 0 escapes with an uncaught built-in
`ZeroDivisionError` that is none of the three kinds. -/
theorem errors_surface_as_single_exception :
    (∀ (e : String) (byR : Except String Nat) (blkR : Except String (List Nat)),
        dust_sensor_read ⟨some e, byR, blkR⟩ = .error (.grovePiException (some e))) ∧
    (∀ (e : String) (byR : Except String Nat),
        dust_sensor_read ⟨none, byR, .error e⟩ = .error (.grovePiException (some e))) ∧
    (∀ (byR : Except String Nat) (d1 d2 d3 : Nat) (rest : List Nat),
        dust_sensor_read ⟨none, byR, .ok (255 :: d1 :: d2 :: d3 :: rest)⟩ =
          .error (.grovePiException none)) ∧
    (∀ (byR : Except String Nat) (b0 : Nat) (rest : List Nat),
        ir_read_signal ⟨none, byR, .ok (b0 :: 255 :: rest)⟩ = .ok (List.replicate 21 (-1))) ∧
    (∀ (n pin mt b0 : Nat) (rest : List Nat),
        dht ⟨none, .ok n, .ok (b0 :: 0 :: 0 :: 192 :: 127 :: 0 :: 0 :: 0 :: 0 :: rest)⟩ pin mt =
          .error (.grovePiException (some ("NaN")))) ∧
    (∀ (E : ℚ → Nat → ConvRes) (n pin : Nat) (m : String) (b0 : Nat) (rest : List Nat),
        temp E ⟨none, .ok n, .ok (b0 :: 0 :: 0 :: rest)⟩ pin m = .error .zeroDivisionError) := by
  refine ⟨?_, ?_, ?_, ?_, ?_, ?_⟩ <;> intros <;> rfl

/-- C3 counterexample: the claim says analog values 0 and 1023 make `temp`
fail with the `InvalidReading` kind (realised in the code as
`GrovePiException("NaN")`).  In fact analog 0 raises an uncaught
`ZeroDivisionError` at line 208 and analog 1023 an uncaught `ValueError`
(`math.log` domain error) at line 209; neither is a `GrovePiException` of any
form. -/
theorem temp_boundary_raises_builtin_errors :
    temp (fun _ _ => ConvRes.val 0) ⟨none, .ok 0, .ok [0, 0, 0, 0, 0]⟩ 0 ("1.0") =
      .error .zeroDivisionError ∧
    temp (fun _ _ => ConvRes.val 0) ⟨none, .ok 0, .ok [0, 3, 255, 0, 0]⟩ 0 ("1.0") =
      .error .valueError ∧
    PyErr.zeroDivisionError ≠ .grovePiException (some ("NaN")) ∧
    PyErr.valueError ≠ .grovePiException (some ("NaN")) ∧
    PyErr.zeroDivisionError ≠ .grovePiException none ∧
    PyErr.valueError ≠ .grovePiException none := by
  have hr : resistanceQ 1023 / 10000 ≤ 0 := by norm_num [resistanceQ]
  refine ⟨rfl, ?_, by decide, by decide, by decide, by decide⟩
  show (if (1023 : Nat) = 0 then Except.error PyErr.zeroDivisionError
        else if resistanceQ 1023 / 10000 ≤ 0 then Except.error PyErr.valueError
        else match (fun (_ : ℚ) (_ : Nat) => ConvRes.val 0) (resistanceQ 1023)
              (temp_b_value ("1.0")) with
          | ConvRes.zeroDiv => Except.error PyErr.zeroDivisionError
          | ConvRes.nan => Except.error (PyErr.grovePiException (some ("NaN")))
          | ConvRes.val t => Except.ok t) = Except.error PyErr.valueError
  rw [if_neg (by decide), if_pos hr]

/-- C3 (amended): in `temp`, an underlying analog read of exactly 0 raises
`ZeroDivisionError` and exactly 1023 raises `ValueError` — uncaught Python
built-in errors, not `InvalidReading`/`GrovePiException`; for analog values
strictly between 0 and 1023 the conversion with the model-selected
B-coefficient proceeds: a NaN result raises `GrovePiException("NaN")` and
any finite result is returned. -/
theorem temp_error_paths :
    ∀ (E : ℚ → Nat → ConvRes) (m : String) (n b0 b1 b2 : Nat) (rest : List Nat),
      (b1 = 0 → b2 = 0 →
        temp E ⟨none, .ok n, .ok (b0 :: b1 :: b2 :: rest)⟩ 0 m = .error .zeroDivisionError) ∧
      (b1 * 256 + b2 = 1023 →
        temp E ⟨none, .ok n, .ok (b0 :: b1 :: b2 :: rest)⟩ 0 m = .error .valueError) ∧
      (0 < b1 * 256 + b2 → b1 * 256 + b2 < 1023 →
        (E (resistanceQ (b1 * 256 + b2)) (temp_b_value m) = .nan →
          temp E ⟨none, .ok n, .ok (b0 :: b1 :: b2 :: rest)⟩ 0 m =
            .error (.grovePiException (some ("NaN")))) ∧
        (∀ t, E (resistanceQ (b1 * 256 + b2)) (temp_b_value m) = .val t →
          temp E ⟨none, .ok n, .ok (b0 :: b1 :: b2 :: rest)⟩ 0 m = .ok t)) := by
  intro E m n b0 b1 b2 rest
  have hunfold : temp E ⟨none, .ok n, .ok (b0 :: b1 :: b2 :: rest)⟩ 0 m =
      (if b1 * 256 + b2 = 0 then Except.error PyErr.zeroDivisionError
       else if resistanceQ (b1 * 256 + b2) / 10000 ≤ 0 then Except.error PyErr.valueError
       else match E (resistanceQ (b1 * 256 + b2)) (temp_b_value m) with
         | ConvRes.zeroDiv => Except.error PyErr.zeroDivisionError
         | ConvRes.nan => Except.error (PyErr.grovePiException (some ("NaN")))
         | ConvRes.val t => Except.ok t) := rfl
  refine ⟨?_, ?_, ?_⟩
  · intro hb1 hb2
    subst hb1; subst hb2
    rfl
  · intro ha
    rw [hunfold, ha, if_neg (by decide), if_pos (by norm_num [resistanceQ])]
  · intro hpos hub
    have hane : ¬ (b1 * 256 + b2 = 0) := by omega
    have hrpos : ¬ (resistanceQ (b1 * 256 + b2) / 10000 ≤ 0) := by
      have hq1 : (0 : ℚ) < ((b1 * 256 + b2 : Nat) : ℚ) := by exact_mod_cast hpos
      have hq2 : ((b1 * 256 + b2 : Nat) : ℚ) < 1023 := by exact_mod_cast hub
      have : (0 : ℚ) < resistanceQ (b1 * 256 + b2) / 10000 := by
        unfold resistanceQ
        refine div_pos (div_pos ?_ hq1) (by norm_num)
        nlinarith
      linarith
    constructor
    · intro hE
      rw [hunfold, if_neg hane, if_neg hrpos, hE]
    · intro t hE
      rw [hunfold, if_neg hane, if_neg hrpos, hE]

/-- C3 witness: a healthy reading — analog value 500 (bytes 1 and 244), model
"1.0", conversion result 25 — is returned as 25. -/
theorem temp_error_paths_witness :
    temp (fun _ _ => ConvRes.val 25) ⟨none, .ok 0, .ok [0, 1, 244, 0, 0]⟩ 0 ("1.0") = .ok 25 :=
  ((temp_error_paths (fun _ _ => ConvRes.val 25) ("1.0") 0 0 1 244 [0, 0]).2.2
    (by decide) (by decide)).2 25 rfl

/-- C4 counterexample: the claim says every decode consumes only bytes at
indices 0 through 4 of the response block.  The IR signal decode returns the
21-byte slice of the block: two blocks agreeing on indices 0..4 but differing
at index 5 decode differently. -/
theorem ir_decode_reads_beyond_index4 :
    ([9, 9, 9, 9, 9, 1] : List Nat).take 5 = ([9, 9, 9, 9, 9, 2] : List Nat).take 5 ∧
    ir_decode [9, 9, 9, 9, 9, 1] = .ok [9, 9, 9, 9, 9, 1] ∧
    ir_decode [9, 9, 9, 9, 9, 2] = .ok [9, 9, 9, 9, 9, 2] ∧
    ([9, 9, 9, 9, 9, 1] : List Int) ≠ [9, 9, 9, 9, 9, 2] := by
  exact ⟨rfl, rfl, rfl, by decide⟩

/-- C4 (amended): the decodes of the analog, ultrasonic, version,
accelerometer, LED-bar-get, dust, encoder and flow reads consume only bytes
at indices 0 through 4 of the block (their results depend only on the first
five bytes); the DHT decode consumes bytes at indices 1 through 8 (it
depends only on the first nine) and the IR signal decode consumes bytes at
indices 0 through 20. -/
theorem decode_consumed_index_ranges :
    ∀ (l1 l2 : List Nat),
      (l1.take 5 = l2.take 5 →
        analog_read_decode l1 = analog_read_decode l2 ∧
        ultrasonic_read_decode l1 = ultrasonic_read_decode l2 ∧
        version_decode l1 = version_decode l2 ∧
        acc_xyz_decode l1 = acc_xyz_decode l2 ∧
        ledbar_get_decode l1 = ledbar_get_decode l2 ∧
        dust_sensor_decode l1 = dust_sensor_decode l2 ∧
        encoder_decode l1 = encoder_decode l2 ∧
        flow_decode l1 = flow_decode l2) ∧
      (l1.take 9 = l2.take 9 → dht_decode l1 = dht_decode l2) ∧
      (l1.take 21 = l2.take 21 → ir_decode l1 = ir_decode l2) := by
  intro l1 l2
  refine ⟨?_, ?_, ?_⟩
  · intro h
    refine ⟨?_, ?_, ?_, ?_, ?_, ?_, ?_, ?_⟩
    · unfold analog_read_decode
      rw [pyGet_congr_of_take_eq h (by norm_num), pyGet_congr_of_take_eq h (by norm_num)]
    · unfold ultrasonic_read_decode
      rw [pyGet_congr_of_take_eq h (by norm_num), pyGet_congr_of_take_eq h (by norm_num)]
    · unfold version_decode
      rw [pyGet_congr_of_take_eq h (by norm_num), pyGet_congr_of_take_eq h (by norm_num),
        pyGet_congr_of_take_eq h (by norm_num)]
    · unfold acc_xyz_decode
      rw [pyGet_congr_of_take_eq h (by norm_num), pyGet_congr_of_take_eq h (by norm_num),
        pyGet_congr_of_take_eq h (by norm_num)]
    · unfold ledbar_get_decode
      rw [pyGet_congr_of_take_eq h (by norm_num), pyGet_congr_of_take_eq h (by norm_num)]
    · unfold dust_sensor_decode
      rw [take_congr_of_take_eq h (by norm_num)]
    · unfold encoder_decode
      rw [take_congr_of_take_eq h (by norm_num)]
    · unfold flow_decode
      rw [take_congr_of_take_eq h (by norm_num)]
  · intro h
    unfold dht_decode
    rw [drop_take_congr_of_take_eq h (by norm_num : 1 + 4 ≤ 9),
      drop_take_congr_of_take_eq h (by norm_num : 5 + 4 ≤ 9)]
  · intro h
    unfold ir_decode
    rw [h]

/-- C4 witness: two blocks agreeing on their first five bytes decode equally
under the analog decode, and two blocks agreeing on their first nine decode
equally under the DHT decode. -/
theorem decode_consumed_index_ranges_witness :
    analog_read_decode [1, 2, 3, 4, 5, 6] = analog_read_decode [1, 2, 3, 4, 5, 7] ∧
    dht_decode [0, 1, 2, 3, 4, 5, 6, 7, 8, 9] = dht_decode [0, 1, 2, 3, 4, 5, 6, 7, 8, 10] :=
  ⟨((decode_consumed_index_ranges [1, 2, 3, 4, 5, 6] [1, 2, 3, 4, 5, 7]).1 (by decide)).1,
   (decode_consumed_index_ranges [0, 1, 2, 3, 4, 5, 6, 7, 8, 9]
      [0, 1, 2, 3, 4, 5, 6, 7, 8, 10]).2.1 (by decide)⟩

/-- C6: for the dust, encoder and flow reads, a response block whose header
byte (index 0) is 255 yields the no-data condition — the bare
`GrovePiException` raise — regardless of the remaining bytes, and a block
whose header byte differs from 255 yields the parsed value. -/
theorem sentinel_header_255_detection :
    ∀ (byR : Except String Nat) (d0 d1 d2 d3 : Nat) (rest : List Nat),
      (d0 = 255 →
        dust_sensor_read ⟨none, byR, .ok (d0 :: d1 :: d2 :: d3 :: rest)⟩ =
          .error (.grovePiException none) ∧
        encoder_read ⟨none, byR, .ok (d0 :: d1 :: d2 :: d3 :: rest)⟩ =
          .error (.grovePiException none) ∧
        flow_read ⟨none, byR, .ok (d0 :: d1 :: d2 :: d3 :: rest)⟩ =
          .error (.grovePiException none)) ∧
      (d0 ≠ 255 →
        dust_sensor_read ⟨none, byR, .ok (d0 :: d1 :: d2 :: d3 :: rest)⟩ =
          .ok [d0, d3 * 256 * 256 + d2 * 256 + d1] ∧
        encoder_read ⟨none, byR, .ok (d0 :: d1 :: d2 :: d3 :: rest)⟩ = .ok [d0, d1] ∧
        flow_read ⟨none, byR, .ok (d0 :: d1 :: d2 :: d3 :: rest)⟩ =
          .ok [d0, d2 * 256 + d1]) := by
  intro byR d0 d1 d2 d3 rest
  constructor
  · intro h0
    subst h0
    exact ⟨rfl, rfl, rfl⟩
  · intro h0
    refine ⟨?_, ?_, ?_⟩
    · show (if d0 ≠ 255 then Except.ok [d0, d3 * 256 * 256 + d2 * 256 + d1]
            else Except.error (PyErr.grovePiException none)) =
          Except.ok [d0, d3 * 256 * 256 + d2 * 256 + d1]
      rw [if_pos h0]
    · show (if d0 ≠ 255 then Except.ok [d0, d1]
            else Except.error (PyErr.grovePiException none)) = Except.ok [d0, d1]
      rw [if_pos h0]
    · show (if d0 ≠ 255 then Except.ok [d0, d2 * 256 + d1]
            else Except.error (PyErr.grovePiException none)) = Except.ok [d0, d2 * 256 + d1]
      rw [if_pos h0]

/-- C6 witness: a sentinel block and a data block for the dust sensor read. -/
theorem sentinel_header_255_detection_witness :
    dust_sensor_read ⟨none, .ok 0, .ok [255, 9, 9, 9, 9]⟩ = .error (.grovePiException none) ∧
    dust_sensor_read ⟨none, .ok 0, .ok [1, 2, 3, 4, 5]⟩ =
      .ok [1, 4 * 256 * 256 + 3 * 256 + 2] :=
  ⟨((sentinel_header_255_detection (.ok 0) 255 9 9 9 [9]).1 rfl).1,
   ((sentinel_header_255_detection (.ok 0) 1 2 3 4 [5]).2 (by decide)).1⟩

set_option maxRecDepth 4000 in
/-- C8: every façade operation passes the transport write a block of exactly
4 bytes — byte 0 the opcode, bytes 1-3 the parameters in order with unused
trailing slots zero; and a digital read of pin 2 writes the frame
`[1, 2, 0, 0]` and returns the single byte read back after the delay. -/
theorem command_frames_are_4_bytes :
    ∀ (a b c n : Nat) (blkR : Except String (List Nat)),
      digital_read_frame a = [1, a, 0, 0] ∧ (digital_read_frame a).length = 4 ∧
      digital_write_frame a b = [2, a, b, 0] ∧ (digital_write_frame a b).length = 4 ∧
      pin_mode_output_frame a = [5, a, 1, 0] ∧ (pin_mode_output_frame a).length = 4 ∧
      pin_mode_input_frame a = [5, a, 0, 0] ∧ (pin_mode_input_frame a).length = 4 ∧
      analog_read_frame a = [3, a, 0, 0] ∧ (analog_read_frame a).length = 4 ∧
      analog_write_frame a b = [4, a, b, 0] ∧ (analog_write_frame a b).length = 4 ∧
      ultrasonic_read_frame a = [7, a, 0, 0] ∧ (ultrasonic_read_frame a).length = 4 ∧
      version_frame = [8, 0, 0, 0] ∧ version_frame.length = 4 ∧
      acc_xyz_frame = [20, 0, 0, 0] ∧ acc_xyz_frame.length = 4 ∧
      rtc_get_time_frame = [30, 0, 0, 0] ∧ rtc_get_time_frame.length = 4 ∧
      dht_frame a b = [40, a, b, 0] ∧ (dht_frame a b).length = 4 ∧
      ledbar_init_frame a b = [50, a, b, 0] ∧ (ledbar_init_frame a b).length = 4 ∧
      ledbar_orient_frame a b = [51, a, b, 0] ∧ (ledbar_orient_frame a b).length = 4 ∧
      ledbar_set_level_frame a b = [52, a, b, 0] ∧ (ledbar_set_level_frame a b).length = 4 ∧
      ledbar_set_led_frame a b c = [53, a, b, c] ∧ (ledbar_set_led_frame a b c).length = 4 ∧
      ledbar_toggle_led_frame a b = [54, a, b, 0] ∧ (ledbar_toggle_led_frame a b).length = 4 ∧
      ledbar_set_bits_frame a b = [55, a, b &&& 255, b >>> 8] ∧
      (ledbar_set_bits_frame a b).length = 4 ∧
      ledbar_get_bits_frame a = [56, a, 0, 0] ∧ (ledbar_get_bits_frame a).length = 4 ∧
      four_digit_init_frame a = [70, a, 0, 0] ∧ (four_digit_init_frame a).length = 4 ∧
      four_digit_number_frame a b true = [72, a, b &&& 255, b >>> 8] ∧
      (four_digit_number_frame a b true).length = 4 ∧
      four_digit_number_frame a b false = [73, a, b &&& 255, b >>> 8] ∧
      (four_digit_number_frame a b false).length = 4 ∧
      four_digit_brightness_frame a b = [71, a, b, 0] ∧
      (four_digit_brightness_frame a b).length = 4 ∧
      four_digit_digit_frame a b c = [74, a, b, c] ∧ (four_digit_digit_frame a b c).length = 4 ∧
      four_digit_segment_frame a b c = [75, a, b, c] ∧
      (four_digit_segment_frame a b c).length = 4 ∧
      four_digit_score_frame a b c = [76, a, b, c] ∧ (four_digit_score_frame a b c).length = 4 ∧
      four_digit_monitor_frame a b c = [77, a, b, c] ∧
      (four_digit_monitor_frame a b c).length = 4 ∧
      four_digit_on_frame a = [78, a, 0, 0] ∧ (four_digit_on_frame a).length = 4 ∧
      four_digit_off_frame a = [79, a, 0, 0] ∧ (four_digit_off_frame a).length = 4 ∧
      store_color_frame a b c = [90, a, b, c] ∧ (store_color_frame a b c).length = 4 ∧
      chainable_rgb_led_init_frame a b = [91, a, b, 0] ∧
      (chainable_rgb_led_init_frame a b).length = 4 ∧
      chainable_rgb_led_test_frame a b c = [92, a, b, c] ∧
      (chainable_rgb_led_test_frame a b c).length = 4 ∧
      chainable_rgb_led_pattern_frame a b c = [93, a, b, c] ∧
      (chainable_rgb_led_pattern_frame a b c).length = 4 ∧
      chainable_rgb_led_modulo_frame a b c = [94, a, b, c] ∧
      (chainable_rgb_led_modulo_frame a b c).length = 4 ∧
      chainable_rgb_led_set_level_frame a b c = [95, a, b, c] ∧
      (chainable_rgb_led_set_level_frame a b c).length = 4 ∧
      ir_read_signal_frame = [21, 0, 0, 0] ∧ ir_read_signal_frame.length = 4 ∧
      ir_recv_pin_frame a = [22, a, 0, 0] ∧ (ir_recv_pin_frame a).length = 4 ∧
      dust_sensor_en_frame = [14, 0, 0, 0] ∧ dust_sensor_en_frame.length = 4 ∧
      dust_sensor_dis_frame = [15, 0, 0, 0] ∧ dust_sensor_dis_frame.length = 4 ∧
      dust_sensor_read_frame = [10, 0, 0, 0] ∧ dust_sensor_read_frame.length = 4 ∧
      encoder_en_frame = [16, 0, 0, 0] ∧ encoder_en_frame.length = 4 ∧
      encoder_dis_frame = [17, 0, 0, 0] ∧ encoder_dis_frame.length = 4 ∧
      encoder_read_frame = [11, 0, 0, 0] ∧ encoder_read_frame.length = 4 ∧
      flow_disable_frame = [13, 0, 0, 0] ∧ flow_disable_frame.length = 4 ∧
      flow_enable_frame = [18, 0, 0, 0] ∧ flow_enable_frame.length = 4 ∧
      flow_read_frame = [12, 0, 0, 0] ∧ flow_read_frame.length = 4 ∧
      digital_read_frame 2 = [1, 2, 0, 0] ∧
      digital_read ⟨none, .ok n, blkR⟩ 2 = .ok n := by
  intro a b c n blkR
  repeat (first | rfl | constructor)

end GrovePi
